import Mathlib

/-!
Verification of `src/xenia/gpu/hlsl_shader_translator.cc` (the Xenos microcode
to HLSL shader translator).

The translator consumes parsed microcode instructions one at a time and appends
HLSL text to an inner string buffer while updating a small amount of mutable
translator state.  We embed the emission shallowly: every `EmitSource*` call
becomes one token of the inductive type `Stmt` below (carrying exactly the
data the source interpolates into the format string), and the translator state
becomes the record `TState`.  Each `Process*`/`Emit*` member function becomes a
Lean function from its parsed-instruction arguments and a `TState` to the list
of emitted tokens paired with the updated state.

Runtime behaviour of emitted code (loop stacks, vertex-format decoding) is
modelled by separate denotational functions that interpret the emitted
statements; those definitions say in their doc comments which emitted lines
they interpret.
-/

namespace XeniaHlsl

/-- Swizzle component selectors, `ucode::SwizzleSource` (x, y, z, w and the
literal constants 0 and 1). -/
inductive SwizzleSource where
  | kX | kY | kZ | kW | k0 | k1
deriving DecidableEq, Repr

/-- `InstructionStorageSource`: where an operand is read from. -/
inductive InstructionStorageSource where
  | kRegister
  | kConstantFloat
  | kConstantInt
  | kConstantBool
  | kVertexFetchConstant
deriving DecidableEq, Repr

/-- `InstructionStorageAddressingMode`: static index, absolute via `xe_a0`, or
relative via the active loop index `xe_aL.x`. -/
inductive InstructionStorageAddressingMode where
  | kStatic
  | kAddressAbsolute
  | kAddressRelative
deriving DecidableEq, Repr

/-- `InstructionStorageTarget`: where a result is written. -/
inductive InstructionStorageTarget where
  | kNone
  | kRegister
  | kInterpolant
  | kPosition
  | kPointSize
  | kColorTarget
  | kDepth
deriving DecidableEq, Repr

/-- A parsed source operand (`InstructionOperand`).  The C++ struct stores a
4-entry component array plus a component count; we model the array as a total
function from `Nat`. -/
structure InstructionOperand where
  storage_source : InstructionStorageSource
  storage_index : Nat
  storage_addressing_mode : InstructionStorageAddressingMode
  is_negated : Bool
  is_absolute_value : Bool
  component_count : Nat
  components : Nat → SwizzleSource

/-- A parsed result descriptor (`InstructionResult`): target, index,
addressing, saturation, 4-component write mask and source swizzle. -/
structure InstructionResult where
  storage_target : InstructionStorageTarget
  storage_index : Nat
  storage_addressing_mode : InstructionStorageAddressingMode
  is_clamped : Bool
  write_mask : Fin 4 → Bool
  components : Fin 4 → SwizzleSource

/-- Modelled from the spec: `InstructionResult::has_any_writes()` (declared in
the shader-translator header, which is not part of this repository snapshot).
Per the data model, it tests whether any of the four write-mask components is
set. -/
def has_any_writes (r : InstructionResult) : Bool :=
  r.write_mask 0 || r.write_mask 1 || r.write_mask 2 || r.write_mask 3

/-- Modelled from the spec: `InstructionOperand::is_standard_swizzle()`
(declared outside this snapshot).  Per the spec a "non-swizzled" operand skips
the swizzle suffix: the swizzle is the full 4-component identity `xyzw`. -/
def is_standard_swizzle (op : InstructionOperand) : Bool :=
  op.component_count == 4 && op.components 0 == SwizzleSource.kX &&
  op.components 1 == SwizzleSource.kY && op.components 2 == SwizzleSource.kZ &&
  op.components 3 == SwizzleSource.kW

/-- `AluVectorOpcode` constructors, as listed by the switch in
`ProcessVectorAluInstruction`. -/
inductive AluVectorOpcode where
  | kAdd | kMul | kMax | kSeq | kSgt | kSge | kSne | kFrc | kTrunc | kFloor
  | kMad | kCndEq | kCndGe | kCndGt | kDp4 | kDp3 | kDp2Add | kCube | kMax4
  | kSetpEqPush | kSetpNePush | kSetpGtPush | kSetpGePush
  | kKillEq | kKillGt | kKillGe | kKillNe | kDst | kMaxA
deriving DecidableEq, Repr

/-- `AluScalarOpcode` constructors, as listed by the switch in
`ProcessScalarAluInstruction`. -/
inductive AluScalarOpcode where
  | kAdds | kAddsPrev | kMuls | kMulsPrev | kMulsPrev2 | kMaxs | kMins
  | kSeqs | kSgts | kSges | kSnes | kFrcs | kTruncs | kFloors | kExp
  | kLogc | kLog | kRcpc | kRcpf | kRcp | kRsqc | kRsqf | kRsq
  | kMaxAs | kMaxAsf | kSubs | kSubsPrev
  | kSetpEq | kSetpNe | kSetpGt | kSetpGe | kSetpInv | kSetpPop | kSetpClr
  | kSetpRstr
  | kKillsEq | kKillsGt | kKillsGe | kKillsNe | kKillsOne
  | kSqrt | kMulsc0 | kMulsc1 | kAddsc0 | kAddsc1 | kSubsc0 | kSubsc1
  | kSin | kCos | kRetainPrev
deriving DecidableEq, Repr

/-- `VertexFormat` constructors, as matched in
`ProcessVertexFetchInstruction`. -/
inductive VertexFormat where
  | k_8_8_8_8 | k_2_10_10_10 | k_10_11_11 | k_11_11_10
  | k_16_16 | k_16_16_16_16 | k_16_16_FLOAT | k_16_16_16_16_FLOAT
  | k_32 | k_32_32 | k_32_32_32_32
  | k_32_FLOAT | k_32_32_FLOAT | k_32_32_32_FLOAT | k_32_32_32_32_FLOAT
deriving DecidableEq, Repr

/-- The base expression selected for an operand by the inner switches of
`EmitLoadOperand` (static addressing on the left, dynamic via `xe_src_index`
on the right).  `invalid` stands for the `default: assert_always()` arm. -/
inductive OperandBase where
  | registerStatic (i : Nat)                 -- xe_r[i]
  | floatConstantStatic (page idx : Nat)     -- xe_float_constants[page].c[idx]
  | intConstantStatic (i : Nat)              -- xe_loop_constants[i]
  | boolConstantStatic (word bit : Nat)      -- float((xe_bool_constants[word] >> bit) & 1)
  | registerDynamic                          -- xe_r[xe_src_index]
  | floatConstantDynamic                     -- xe_float_constants[idx >> 5].c[idx & 31]
  | intConstantDynamic                       -- xe_loop_constants[xe_src_index]
  | boolConstantDynamic                      -- float((xe_bool_constants[idx >> 5] >> (idx & 31)) & 1)
  | invalid
deriving DecidableEq, Repr

/-- The full operand expression emitted by `EmitLoadOperand` into
`xe_src<N> = ...;`: negation/abs wrappers, base expression, and the swizzle
suffix characters (`[]` when no suffix is printed). -/
structure OperandExpr where
  negated : Bool
  absolute : Bool
  base : OperandBase
  swizzle : List SwizzleSource
deriving DecidableEq, Repr

/-- Left-hand side base of a store emitted by `EmitStoreResult`. -/
inductive StoreBase where
  | register        -- xe_r
  | interpolant     -- xe_output.interpolators
  | position        -- xe_output.position
  | pointSize       -- xe_output.point_size
  | colorTarget     -- xe_output.colors
  | depth           -- xe_output.depth
deriving DecidableEq, Repr

/-- Array index expression of a store (`[i]`, `[i + xe_a0]`, `[i + xe_aL.x]`). -/
inductive StoreIndex where
  | static (i : Nat)
  | absolute (i : Nat)
  | relative (i : Nat)
deriving DecidableEq, Repr

/-- One component of the right-hand side of a store: a literal 0.0 / 1.0, the
previous scalar `xe_ps`, or a component of the previous vector `xe_pv`. -/
inductive StoreComp where
  | zero
  | one
  | ps
  | pv (c : SwizzleSource)
deriving DecidableEq, Repr

/-- Right-hand side shapes produced by `EmitStoreResult`. -/
inductive StoreRhs where
  | scalar (c : StoreComp)                -- scalar-target store
  | constVector (cs : List StoreComp)     -- literal-expanded vector construction
  | psSplat (count : Nat)                 -- xe_ps replicated over the masked lanes
  | pvSwizzle (cs : List SwizzleSource)   -- xe_pv.<swizzle of masked lanes>
deriving DecidableEq, Repr

/-- The single assignment statement emitted by `EmitStoreResult`. -/
structure StoreStmt where
  base : StoreBase
  index : Option StoreIndex
  maskComponents : List (Fin 4)   -- lhs mask components, in x..w order ([] for scalar stores)
  clamped : Bool                  -- whether the rhs is wrapped in saturate(...)
  rhs : StoreRhs
deriving DecidableEq, Repr

/-- One emitted HLSL line (or line group): each `EmitSource`/`EmitSourceDepth`
call site of the translator maps to one constructor, carrying exactly the data
interpolated into its format string. -/
inductive Stmt where
  | disasm                                 -- "// <instruction disassembly>"
  | cnop                                   -- "// cnop"
  | fallthroughComment (next : Nat)        -- "// Falling through to L<next>"
  | caseLabel (addr : Nat)                 -- "case <addr>u:"
  | assignPC (target : Nat)                -- "xe_pc = <target>u;"
  | brk                                    -- "break;"
  | openBlock                              -- "{"
  | closeBlock                             -- "}"
  | elseBlock                              -- "} else {"
  | ifBoolConstantTest (word bit : Nat) (cond : Bool)
      -- "if ((xe_bool_constants[word] & (1u << bit)) ==/!= 0u) {"
  | ifPredTest (cond : Bool)               -- "if (xe_p0) {" / "if (!xe_p0) {"
  | translationError                       -- "// TRANSLATION ERROR: <message>"
  | unimplemented                          -- "// UNIMPLEMENTED TRANSLATION"
  | loopCountPush                          -- "xe_loop_count.yzw = xe_loop_count.xyz;"
  | loopCountLoad (i : Nat)                -- "xe_loop_count.x = xe_loop_constants[i] & 0xFFu;"
  | aLPush                                 -- "xe_aL = xe_aL.xxyz;"
  | aLLoad (i : Nat)                       -- "xe_aL.x = int((xe_loop_constants[i] >> 8u) & 0xFFu);"
  | ifLoopCountZero                        -- "if (xe_loop_count.x == 0u) {"
  | ifLoopEndTest (predBreak : Option Bool)
      -- "if (--xe_loop_count.x == 0u" [ " || [!]xe_p0" ] ") {"
  | loopCountPop                           -- "xe_loop_count.xyz = xe_loop_count.yzw;"
  | loopCountClearW                        -- "xe_loop_count.w = 0u;"
  | aLPop                                  -- "xe_aL.xyz = xe_aL.yzw;"
  | aLClearW                               -- "xe_aL.w = 0;"
  | aLStep (i : Nat)                       -- "xe_aL.x += int(xe_loop_constants[i] << 8u) >> 24;"
  | srcIndexAbsolute (idx max : Nat)       -- "xe_src_index = uint(idx + xe_a0) & max;"
  | srcIndexRelative (idx max : Nat)       -- "xe_src_index = uint(idx + xe_aL.x) & max;"
  | srcAssign (slot : Nat) (e : OperandExpr)  -- "xe_src<slot> = <expr>;"
  | store (st : StoreStmt)                 -- the assignment of EmitStoreResult
  | vfetchLoad (fetchConstant lanes stride offset : Nat)
      -- "xe_vertex_element... = XeByteSwap(xe_shared_memory.Load<lanes>(...), ...);"
  | vfetchConvert (fmt : VertexFormat) (signed integer : Bool)
      -- the format-conversion statement group for the given format/flags
  | tfetchStub                             -- "xe_pv = (1.0).xxxx;"
  | aluVector (op : AluVectorOpcode)       -- the statement group of the vector opcode
  | aluScalar (op : AluScalarOpcode)       -- the statement group of the scalar opcode
deriving DecidableEq, Repr

/-- The mutable translator state set up by `HlslShaderTranslator::Reset`.
`error_count` and `assert_failed` are modelled from the spec: the base class
`ShaderTranslator::EmitTranslationError` (outside this snapshot) records each
translation error for the caller, and `assert_always()` (xenia assert macro,
outside this snapshot) signals an assertion-class internal failure. -/
structure TState where
  cf_wrote_pc : Bool
  cf_exec_pred : Bool
  cf_exec_pred_cond : Bool
  writes_depth : Bool
  srv_bindings : List (Nat × Nat)
  sampler_fetch_constants : List Nat
  cube_used : Bool
  error_count : Nat
  assert_failed : Bool
deriving DecidableEq, Repr

/-- The state right after `Reset()`. -/
def initState : TState :=
  { cf_wrote_pc := false
    cf_exec_pred := false
    cf_exec_pred_cond := false
    writes_depth := false
    srv_bindings := []
    sampler_fetch_constants := []
    cube_used := false
    error_count := 0
    assert_failed := false }

/-- `HlslShaderTranslator::EmitTranslationError`: records the error (base
class, modelled as an error counter) and emits the inert marker comment. -/
def EmitTranslationError (s : TState) : List Stmt × TState :=
  ([Stmt.translationError], { s with error_count := s.error_count + 1 })

/-- `HlslShaderTranslator::EmitUnimplementedTranslationError`. -/
def EmitUnimplementedTranslationError (s : TState) : List Stmt × TState :=
  ([Stmt.unimplemented], { s with error_count := s.error_count + 1 })

/-- `HlslShaderTranslator::ProcessLabel`: for a non-zero label, if the
previous instruction did not write the program counter, synthesize the
fallthrough `xe_pc = <label>; break;` before opening the new case. -/
def ProcessLabel (cf_index : Nat) (s : TState) : List Stmt :=
  if cf_index ≠ 0 then
    (if s.cf_wrote_pc then [] else [Stmt.assignPC cf_index, Stmt.brk]) ++
      [Stmt.caseLabel cf_index]
  else []

/-- `HlslShaderTranslator::ProcessControlFlowNopInstruction`. -/
def ProcessControlFlowNopInstruction : List Stmt := [Stmt.cnop]

/-- `HlslShaderTranslator::ProcessControlFlowInstructionBegin`. -/
def ProcessControlFlowInstructionBegin (s : TState) : TState :=
  { s with cf_wrote_pc := false }

/-- `HlslShaderTranslator::ProcessControlFlowInstructionEnd`: a comment
marking the implicit fallthrough when the instruction did not write the
counter. -/
def ProcessControlFlowInstructionEnd (cf_index : Nat) (s : TState) : List Stmt :=
  if s.cf_wrote_pc then [] else [Stmt.fallthroughComment (cf_index + 1)]

/-- `ParsedExecInstruction::Type`. -/
inductive ExecType where
  | kUnconditional
  | kConditional
  | kPredicated
deriving DecidableEq, Repr

/-- The fields of `ParsedExecInstruction` that the translator reads. -/
structure ParsedExecInstruction where
  type : ExecType
  bool_constant_index : Nat
  condition : Bool
  is_end : Bool

/-- `HlslShaderTranslator::ProcessExecInstructionBegin`: disassembly comment,
then the scope opener for the exec condition; tracks whether the block is
predicate-guarded (`cf_exec_pred_`) and with which polarity. -/
def ProcessExecInstructionBegin (instr : ParsedExecInstruction) (s : TState) :
    List Stmt × TState :=
  let s1 := { s with cf_exec_pred := false }
  match instr.type with
  | ExecType.kUnconditional => ([Stmt.disasm, Stmt.openBlock], s1)
  | ExecType.kConditional =>
      ([Stmt.disasm,
        Stmt.ifBoolConstantTest (instr.bool_constant_index >>> 5)
          (instr.bool_constant_index % 32) instr.condition], s1)
  | ExecType.kPredicated =>
      ([Stmt.disasm, Stmt.ifPredTest instr.condition],
       { s1 with cf_exec_pred := true, cf_exec_pred_cond := instr.condition })

/-- `HlslShaderTranslator::ProcessExecInstructionEnd`: if this is the final
exec block, force `xe_pc = 0xFFFF; break;` and mark the counter written. -/
def ProcessExecInstructionEnd (instr : ParsedExecInstruction) (s : TState) :
    List Stmt × TState :=
  if instr.is_end then
    ([Stmt.assignPC 0xFFFF, Stmt.brk, Stmt.closeBlock],
     { s with cf_wrote_pc := true })
  else ([Stmt.closeBlock], s)

/-- `ParsedJumpInstruction::Type`. -/
inductive JumpType where
  | kUnconditional
  | kConditional
  | kPredicated
deriving DecidableEq, Repr

/-- The fields of `ParsedJumpInstruction` that the translator reads. -/
structure ParsedJumpInstruction where
  type : JumpType
  dword_index : Nat
  target_address : Nat
  bool_constant_index : Nat
  condition : Bool

/-- `HlslShaderTranslator::ProcessJumpInstruction`: a guarded
`xe_pc = target; break;`, with an else-branch assigning the fallthrough
address for the conditional forms.  Note that it never sets `cf_wrote_pc_`. -/
def ProcessJumpInstruction (instr : ParsedJumpInstruction) (s : TState) :
    List Stmt × TState :=
  let head : List Stmt × Bool :=
    match instr.type with
    | JumpType.kUnconditional => ([Stmt.openBlock], false)
    | JumpType.kConditional =>
        ([Stmt.ifBoolConstantTest (instr.bool_constant_index >>> 5)
            (instr.bool_constant_index % 32) instr.condition], true)
    | JumpType.kPredicated => ([Stmt.ifPredTest instr.condition], true)
  (Stmt.disasm :: head.1 ++ [Stmt.assignPC instr.target_address, Stmt.brk] ++
    (if head.2 then [Stmt.elseBlock, Stmt.assignPC (instr.dword_index + 1)]
     else []) ++ [Stmt.closeBlock], s)

/-- The fields of `ParsedLoopStartInstruction` that the translator reads. -/
structure ParsedLoopStartInstruction where
  dword_index : Nat
  loop_constant_index : Nat
  is_repeat : Bool
  loop_skip_address : Nat

/-- `HlslShaderTranslator::ProcessLoopStartInstruction`: push the count and
index stacks, load the new count (and, unless repeating, the new start index)
from the loop constant, then branch to the skip address on a zero count or to
the loop body; marks the counter written. -/
def ProcessLoopStartInstruction (instr : ParsedLoopStartInstruction)
    (s : TState) : List Stmt × TState :=
  ([Stmt.disasm, Stmt.loopCountPush, Stmt.loopCountLoad instr.loop_constant_index,
    Stmt.aLPush] ++
    (if instr.is_repeat then [] else [Stmt.aLLoad instr.loop_constant_index]) ++
    [Stmt.ifLoopCountZero, Stmt.assignPC instr.loop_skip_address,
     Stmt.elseBlock, Stmt.assignPC (instr.dword_index + 1), Stmt.closeBlock,
     Stmt.brk],
   { s with cf_wrote_pc := true })

/-- The fields of `ParsedLoopEndInstruction` that the translator reads. -/
structure ParsedLoopEndInstruction where
  dword_index : Nat
  loop_constant_index : Nat
  is_predicated_break : Bool
  predicate_condition : Bool
  loop_body_address : Nat

/-- `HlslShaderTranslator::ProcessLoopEndInstruction`: decrement the count;
on exit pop both stacks (zeroing their `w` lanes) and fall through, otherwise
step the active index and branch back to the body; marks the counter
written. -/
def ProcessLoopEndInstruction (instr : ParsedLoopEndInstruction) (s : TState) :
    List Stmt × TState :=
  ([Stmt.disasm,
    Stmt.ifLoopEndTest
      (if instr.is_predicated_break then some instr.predicate_condition
       else none),
    Stmt.loopCountPop, Stmt.loopCountClearW, Stmt.aLPop, Stmt.aLClearW,
    Stmt.assignPC (instr.dword_index + 1),
    Stmt.elseBlock, Stmt.aLStep instr.loop_constant_index,
    Stmt.assignPC instr.loop_body_address, Stmt.closeBlock, Stmt.brk],
   { s with cf_wrote_pc := true })

/-- `HlslShaderTranslator::ProcessCallInstruction`: unsupported construct. -/
def ProcessCallInstruction (s : TState) : List Stmt × TState :=
  let e := EmitUnimplementedTranslationError s
  (Stmt.disasm :: e.1, e.2)

/-- `HlslShaderTranslator::ProcessReturnInstruction`: unsupported construct. -/
def ProcessReturnInstruction (s : TState) : List Stmt × TState :=
  let e := EmitUnimplementedTranslationError s
  (Stmt.disasm :: e.1, e.2)

/-- `HlslShaderTranslator::ProcessAllocInstruction`: traceability comment
only. -/
def ProcessAllocInstruction (s : TState) : List Stmt × TState :=
  ([Stmt.disasm], s)

/-- `HlslShaderTranslator::BeginPredicatedInstruction`: open a `xe_p0` guard
block when the instruction is predicated and not already covered by an
enclosing predicate-guarded exec block of the same polarity. -/
def BeginPredicatedInstruction (is_predicated predicate_condition : Bool)
    (s : TState) : List Stmt × Bool :=
  if is_predicated &&
      (!s.cf_exec_pred || s.cf_exec_pred_cond != predicate_condition) then
    ([Stmt.ifPredTest predicate_condition], true)
  else ([], false)

/-- `HlslShaderTranslator::EndPredicatedInstruction`: close the guard block
iff one was opened. -/
def EndPredicatedInstruction (conditional_emitted : Bool) : List Stmt :=
  if conditional_emitted then [Stmt.closeBlock] else []

/-- The `storage_index_max` selection at the top of `EmitLoadOperand`
(`none` for the `default: assert_always()` arm, i.e. vertex-fetch-constant
operands, which must not appear here). -/
def storageIndexMax : InstructionStorageSource → Option Nat
  | InstructionStorageSource.kRegister => some 127
  | InstructionStorageSource.kConstantFloat => some 255
  | InstructionStorageSource.kConstantBool => some 255
  | InstructionStorageSource.kConstantInt => some 31
  | InstructionStorageSource.kVertexFetchConstant => none

/-- The base-expression switch of `EmitLoadOperand` (static addressing uses
the constant index split as page times 32, dynamic addressing reads through
`xe_src_index`). -/
def operandBase (op : InstructionOperand) : OperandBase :=
  if op.storage_addressing_mode = InstructionStorageAddressingMode.kStatic then
    match op.storage_source with
    | InstructionStorageSource.kRegister =>
        OperandBase.registerStatic op.storage_index
    | InstructionStorageSource.kConstantFloat =>
        OperandBase.floatConstantStatic (op.storage_index >>> 5)
          (op.storage_index % 32)
    | InstructionStorageSource.kConstantInt =>
        OperandBase.intConstantStatic op.storage_index
    | InstructionStorageSource.kConstantBool =>
        OperandBase.boolConstantStatic (op.storage_index >>> 5)
          (op.storage_index % 32)
    | InstructionStorageSource.kVertexFetchConstant => OperandBase.invalid
  else
    match op.storage_source with
    | InstructionStorageSource.kRegister => OperandBase.registerDynamic
    | InstructionStorageSource.kConstantFloat => OperandBase.floatConstantDynamic
    | InstructionStorageSource.kConstantInt => OperandBase.intConstantDynamic
    | InstructionStorageSource.kConstantBool => OperandBase.boolConstantDynamic
    | InstructionStorageSource.kVertexFetchConstant => OperandBase.invalid

/-- The swizzle suffix emitted by `EmitLoadOperand`: integer and boolean
constants are always broadcast `.xxxx`; a standard swizzle is skipped; a
partial swizzle is padded by replicating the last requested component
(`.aaaa` for one component, `.abbb` for two). -/
def operandSwizzle (op : InstructionOperand) : List SwizzleSource :=
  if op.storage_source = InstructionStorageSource.kConstantInt ∨
      op.storage_source = InstructionStorageSource.kConstantBool then
    [SwizzleSource.kX, SwizzleSource.kX, SwizzleSource.kX, SwizzleSource.kX]
  else if is_standard_swizzle op then []
  else
    (List.range op.component_count).map op.components ++
      (List.range (4 - op.component_count)).map
        (fun _ => op.components (op.component_count - 1))

/-- The full operand expression emitted into `xe_src<N> = ...;` by
`EmitLoadOperand`. -/
def operandExpr (op : InstructionOperand) : OperandExpr :=
  { negated := op.is_negated
    absolute := op.is_absolute_value
    base := operandBase op
    swizzle := operandSwizzle op }

/-- `HlslShaderTranslator::EmitLoadOperand`: for dynamic addressing first
emit the masked `xe_src_index` computation, then the operand assignment.
The `default: assert_always(); return;` arm fires for vertex-fetch-constant
sources. -/
def EmitLoadOperand (src_index : Nat) (op : InstructionOperand) (s : TState) :
    List Stmt × TState :=
  match storageIndexMax op.storage_source with
  | none => ([], { s with assert_failed := true })
  | some mx =>
      let pre : List Stmt :=
        match op.storage_addressing_mode with
        | InstructionStorageAddressingMode.kStatic => []
        | InstructionStorageAddressingMode.kAddressAbsolute =>
            [Stmt.srcIndexAbsolute op.storage_index mx]
        | InstructionStorageAddressingMode.kAddressRelative =>
            [Stmt.srcIndexRelative op.storage_index mx]
      (pre ++ [Stmt.srcAssign src_index (operandExpr op)], s)

/-- `storage_is_scalar` in `EmitStoreResult`: point size and depth take a
single source component. -/
def storageIsScalar (t : InstructionStorageTarget) : Bool :=
  t == InstructionStorageTarget.kPointSize ||
  t == InstructionStorageTarget.kDepth

/-- The early-return write-mask test of `EmitStoreResult`: scalar targets
check only the first write-mask component, vector targets check
`has_any_writes`. -/
def storeMaskEmpty (result : InstructionResult) : Bool :=
  if storageIsScalar result.storage_target then !result.write_mask 0
  else !has_any_writes result

/-- The lhs base selected by the storage-target switch of `EmitStoreResult`
(`none` for `kNone`, which returns without emitting). -/
def storeBase : InstructionStorageTarget → Option StoreBase
  | InstructionStorageTarget.kRegister => some StoreBase.register
  | InstructionStorageTarget.kInterpolant => some StoreBase.interpolant
  | InstructionStorageTarget.kPosition => some StoreBase.position
  | InstructionStorageTarget.kPointSize => some StoreBase.pointSize
  | InstructionStorageTarget.kColorTarget => some StoreBase.colorTarget
  | InstructionStorageTarget.kDepth => some StoreBase.depth
  | InstructionStorageTarget.kNone => none

/-- `storage_is_array` in `EmitStoreResult`. -/
def storageIsArray : InstructionStorageTarget → Bool
  | InstructionStorageTarget.kRegister => true
  | InstructionStorageTarget.kInterpolant => true
  | InstructionStorageTarget.kColorTarget => true
  | _ => false

/-- The array index expression of `EmitStoreResult`, per addressing mode. -/
def storeIndex (result : InstructionResult) : StoreIndex :=
  match result.storage_addressing_mode with
  | InstructionStorageAddressingMode.kStatic =>
      StoreIndex.static result.storage_index
  | InstructionStorageAddressingMode.kAddressAbsolute =>
      StoreIndex.absolute result.storage_index
  | InstructionStorageAddressingMode.kAddressRelative =>
      StoreIndex.relative result.storage_index

/-- The masked lhs components (`x..w` order) of a vector store. -/
def storeMaskComponents (result : InstructionResult) : List (Fin 4) :=
  (List.finRange 4).filter (fun i => result.write_mask i)

/-- `has_const_writes` in `EmitStoreResult`: some masked component denotes a
literal 0 or 1. -/
def hasConstWrites (result : InstructionResult) : Bool :=
  (storeMaskComponents result).any fun i =>
    result.components i == SwizzleSource.k0 ||
    result.components i == SwizzleSource.k1

/-- One rhs component of the literal-expanded vector construction. -/
def storeComp (source_is_scalar : Bool) (c : SwizzleSource) : StoreComp :=
  match c with
  | SwizzleSource.k0 => StoreComp.zero
  | SwizzleSource.k1 => StoreComp.one
  | c => if source_is_scalar then StoreComp.ps else StoreComp.pv c

/-- The assignment built by the scalar-target branch of `EmitStoreResult`
(a literal 0.0/1.0 is never wrapped in `saturate`). -/
def scalarStoreStmt (result : InstructionResult) (source_is_scalar : Bool)
    (base : StoreBase) (index : Option StoreIndex) : StoreStmt :=
  match result.components 0 with
  | SwizzleSource.k0 =>
      { base := base, index := index, maskComponents := [], clamped := false
        rhs := StoreRhs.scalar StoreComp.zero }
  | SwizzleSource.k1 =>
      { base := base, index := index, maskComponents := [], clamped := false
        rhs := StoreRhs.scalar StoreComp.one }
  | c =>
      { base := base, index := index, maskComponents := []
        clamped := result.is_clamped
        rhs := StoreRhs.scalar
          (if source_is_scalar then StoreComp.ps else StoreComp.pv c) }

/-- The assignment built by the vector-target branch of `EmitStoreResult`. -/
def vectorStoreStmt (result : InstructionResult) (source_is_scalar : Bool)
    (base : StoreBase) (index : Option StoreIndex) : StoreStmt :=
  let mask := storeMaskComponents result
  let rhs :=
    if hasConstWrites result then
      StoreRhs.constVector
        (mask.map fun i => storeComp source_is_scalar (result.components i))
    else if source_is_scalar then StoreRhs.psSplat mask.length
    else StoreRhs.pvSwizzle (mask.map fun i => result.components i)
  { base := base, index := index, maskComponents := mask
    clamped := result.is_clamped, rhs := rhs }

/-- `HlslShaderTranslator::EmitStoreResult`: early-return on an empty write
mask, return without emitting for target `kNone`, otherwise emit exactly one
assignment and record `writes_depth_` for depth stores. -/
def EmitStoreResult (result : InstructionResult) (source_is_scalar : Bool)
    (s : TState) : List Stmt × TState :=
  if storeMaskEmpty result then ([], s)
  else
    match storeBase result.storage_target with
    | none => ([], s)
    | some b =>
        let idx :=
          if storageIsArray result.storage_target then some (storeIndex result)
          else none
        let st :=
          if storageIsScalar result.storage_target then
            scalarStoreStmt result source_is_scalar b idx
          else vectorStoreStmt result source_is_scalar b idx
        ([Stmt.store st],
         if result.storage_target = InstructionStorageTarget.kDepth then
           { s with writes_depth := true }
         else s)

/-- `ParsedAluInstruction::Type`. -/
inductive AluType where
  | kNop
  | kVector
  | kScalar
deriving DecidableEq, Repr

/-- The fields of `ParsedAluInstruction` that the translator reads. -/
structure ParsedAluInstruction where
  type : AluType
  vector_opcode : AluVectorOpcode
  scalar_opcode : AluScalarOpcode
  is_predicated : Bool
  predicate_condition : Bool
  operand_count : Nat
  operands : Nat → InstructionOperand
  result : InstructionResult

/-- The fields of `ParsedTextureFetchInstruction` that the translator
reads. -/
structure ParsedTextureFetchInstruction where
  is_predicated : Bool
  predicate_condition : Bool
  result : InstructionResult

/-- Fetch attributes of a vertex-fetch instruction. -/
structure FetchAttributes where
  data_format : VertexFormat
  is_signed : Bool
  is_integer : Bool
  stride : Nat
  offset : Nat

/-- The fields of `ParsedVertexFetchInstruction` that the translator reads. -/
structure ParsedVertexFetchInstruction where
  operand_count : Nat
  operands : Nat → InstructionOperand
  attributes : FetchAttributes
  is_predicated : Bool
  predicate_condition : Bool
  result : InstructionResult

/-- The `for (i < operand_count) EmitLoadOperand(i, operands[i])` loop of the
ALU processors (operands loaded in order 0, 1, ...). -/
def emitLoads (ops : Nat → InstructionOperand) :
    Nat → TState → List Stmt × TState
  | 0, s => ([], s)
  | k + 1, s =>
      let a := emitLoads ops k s
      let b := EmitLoadOperand k (ops k) a.2
      (a.1 ++ b.1, b.2)

/-- The vector opcodes whose case in `ProcessVectorAluInstruction` executes
`cf_exec_pred_ = false;` (the predicate-setting push opcodes). -/
def vectorOpcodeSetsPredicate : AluVectorOpcode → Bool
  | AluVectorOpcode.kSetpEqPush => true
  | AluVectorOpcode.kSetpNePush => true
  | AluVectorOpcode.kSetpGtPush => true
  | AluVectorOpcode.kSetpGePush => true
  | _ => false

/-- `HlslShaderTranslator::ProcessVectorAluInstruction`: optional predicate
guard, operand loads, the opcode's statement group (`kCube` records
`cube_used_`, the `kSetp*Push` opcodes clear the exec predicate fast path),
the result store from `xe_pv`, and the symmetric guard close. -/
def ProcessVectorAluInstruction (instr : ParsedAluInstruction) (s : TState) :
    List Stmt × TState :=
  let guard := BeginPredicatedInstruction instr.is_predicated
    instr.predicate_condition s
  let loads := emitLoads instr.operands instr.operand_count s
  let s1 :=
    if vectorOpcodeSetsPredicate instr.vector_opcode then
      { loads.2 with cf_exec_pred := false }
    else loads.2
  let s2 :=
    if instr.vector_opcode = AluVectorOpcode.kCube then
      { s1 with cube_used := true }
    else s1
  let st := EmitStoreResult instr.result false s2
  (guard.1 ++ loads.1 ++ [Stmt.aluVector instr.vector_opcode] ++ st.1 ++
    EndPredicatedInstruction guard.2, st.2)

/-- The scalar opcodes whose case in `ProcessScalarAluInstruction` executes
`cf_exec_pred_ = false;` (the predicate-setting opcodes). -/
def scalarOpcodeSetsPredicate : AluScalarOpcode → Bool
  | AluScalarOpcode.kSetpEq => true
  | AluScalarOpcode.kSetpNe => true
  | AluScalarOpcode.kSetpGt => true
  | AluScalarOpcode.kSetpGe => true
  | AluScalarOpcode.kSetpInv => true
  | AluScalarOpcode.kSetpPop => true
  | AluScalarOpcode.kSetpClr => true
  | AluScalarOpcode.kSetpRstr => true
  | _ => false

/-- `HlslShaderTranslator::ProcessScalarAluInstruction`: optional predicate
guard, operand loads, the opcode's statement group (the `kSetp*` opcodes
clear the exec predicate fast path), the result store from `xe_ps`, and the
symmetric guard close. -/
def ProcessScalarAluInstruction (instr : ParsedAluInstruction) (s : TState) :
    List Stmt × TState :=
  let guard := BeginPredicatedInstruction instr.is_predicated
    instr.predicate_condition s
  let loads := emitLoads instr.operands instr.operand_count s
  let s1 :=
    if scalarOpcodeSetsPredicate instr.scalar_opcode then
      { loads.2 with cf_exec_pred := false }
    else loads.2
  let st := EmitStoreResult instr.result true s1
  (guard.1 ++ loads.1 ++ [Stmt.aluScalar instr.scalar_opcode] ++ st.1 ++
    EndPredicatedInstruction guard.2, st.2)

/-- `HlslShaderTranslator::ProcessAluInstruction`: disassembly comment, then
dispatch on the instruction subtype (`kNop` emits nothing further). -/
def ProcessAluInstruction (instr : ParsedAluInstruction) (s : TState) :
    List Stmt × TState :=
  match instr.type with
  | AluType.kNop => ([Stmt.disasm], s)
  | AluType.kVector =>
      let r := ProcessVectorAluInstruction instr s
      (Stmt.disasm :: r.1, r.2)
  | AluType.kScalar =>
      let r := ProcessScalarAluInstruction instr s
      (Stmt.disasm :: r.1, r.2)

/-- The lane-count selection (`load_function_suffix`) of
`ProcessVertexFetchInstruction`. -/
def vfetchLoadLanes : VertexFormat → Nat
  | VertexFormat.k_16_16_16_16 => 2
  | VertexFormat.k_16_16_16_16_FLOAT => 2
  | VertexFormat.k_32_32 => 2
  | VertexFormat.k_32_32_FLOAT => 2
  | VertexFormat.k_32_32_32_FLOAT => 3
  | VertexFormat.k_32_32_32_32 => 4
  | VertexFormat.k_32_32_32_32_FLOAT => 4
  | _ => 1

/-- `HlslShaderTranslator::ProcessVertexFetchInstruction`: after the
disassembly comment, a malformed second operand (not a vertex-fetch
constant) hits `assert_always(); return;` — no translation error is recorded
and the instruction is dropped.  Otherwise: optional predicate guard, load of
operand 0, the byte-swapped shared-memory load, the format conversion group,
the result store, and the guard close. -/
def ProcessVertexFetchInstruction (instr : ParsedVertexFetchInstruction)
    (s : TState) : List Stmt × TState :=
  if instr.operand_count < 2 ∨
      (instr.operands 1).storage_source ≠
        InstructionStorageSource.kVertexFetchConstant then
    ([Stmt.disasm], { s with assert_failed := true })
  else
    let guard := BeginPredicatedInstruction instr.is_predicated
      instr.predicate_condition s
    let loads := EmitLoadOperand 0 (instr.operands 0) s
    let fetch : List Stmt :=
      [Stmt.vfetchLoad (instr.operands 1).storage_index
        (vfetchLoadLanes instr.attributes.data_format)
        instr.attributes.stride instr.attributes.offset,
       Stmt.vfetchConvert instr.attributes.data_format
        instr.attributes.is_signed instr.attributes.is_integer]
    let st := EmitStoreResult instr.result false loads.2
    (Stmt.disasm :: (guard.1 ++ loads.1 ++ fetch ++ st.1 ++
      EndPredicatedInstruction guard.2), st.2)

/-- `HlslShaderTranslator::ProcessTextureFetchInstruction`: placeholder that
stores an all-ones result. -/
def ProcessTextureFetchInstruction (instr : ParsedTextureFetchInstruction)
    (s : TState) : List Stmt × TState :=
  let guard := BeginPredicatedInstruction instr.is_predicated
    instr.predicate_condition s
  let st := EmitStoreResult instr.result false s
  (Stmt.disasm :: (guard.1 ++ [Stmt.tfetchStub] ++ st.1 ++
    EndPredicatedInstruction guard.2), st.2)

/-- `HlslShaderTranslator::AddSRVBinding`: linear scan for an existing
(kind, fetch-constant) binding; on a miss append a new binding and return its
dense index.  The kind tag (`SRVType`, declared outside this snapshot) is
modelled as an opaque `Nat`. -/
def AddSRVBinding : List (Nat × Nat) → Nat → Nat → Nat × List (Nat × Nat)
  | [], type, fetch_constant => (0, [(type, fetch_constant)])
  | b :: rest, type, fetch_constant =>
      if b.1 = type ∧ b.2 = fetch_constant then (0, b :: rest)
      else
        let r := AddSRVBinding rest type fetch_constant
        (r.1 + 1, b :: r.2)

/-- `HlslShaderTranslator::AddSampler`: linear scan of the sampler fetch
constants; on a miss append and return the new dense index. -/
def AddSampler : List Nat → Nat → Nat × List Nat
  | [], fetch_constant => (0, [fetch_constant])
  | c :: rest, fetch_constant =>
      if c = fetch_constant then (0, c :: rest)
      else
        let r := AddSampler rest fetch_constant
        (r.1 + 1, c :: r.2)

/-- A non-control instruction appearing inside an exec block. -/
inductive InnerInstruction where
  | alu (instr : ParsedAluInstruction)
  | vertexFetch (instr : ParsedVertexFetchInstruction)
  | textureFetch (instr : ParsedTextureFetchInstruction)

/-- Dispatch of one inner (non-control) instruction. -/
def processInner (ins : InnerInstruction) (s : TState) : List Stmt × TState :=
  match ins with
  | InnerInstruction.alu i => ProcessAluInstruction i s
  | InnerInstruction.vertexFetch i => ProcessVertexFetchInstruction i s
  | InnerInstruction.textureFetch i => ProcessTextureFetchInstruction i s

/-- Sequential processing of an exec block's inner instructions. -/
def processInnerList : List InnerInstruction → TState → List Stmt × TState
  | [], s => ([], s)
  | i :: rest, s =>
      let a := processInner i s
      let b := processInnerList rest a.2
      (a.1 ++ b.1, b.2)

/-- One control-flow instruction as driven through the translator (an exec
block carries the inner instructions translated between its begin and end
callbacks). -/
inductive CfInstruction where
  | cnop
  | exec (instr : ParsedExecInstruction) (body : List InnerInstruction)
  | jump (instr : ParsedJumpInstruction)
  | loopStart (instr : ParsedLoopStartInstruction)
  | loopEnd (instr : ParsedLoopEndInstruction)
  | call
  | ret
  | alloc

/-- Emission of one control-flow instruction's case body (between the
begin/end callbacks). -/
def processCf (ins : CfInstruction) (s : TState) : List Stmt × TState :=
  match ins with
  | CfInstruction.cnop => (ProcessControlFlowNopInstruction, s)
  | CfInstruction.exec instr body =>
      let a := ProcessExecInstructionBegin instr s
      let b := processInnerList body a.2
      let c := ProcessExecInstructionEnd instr b.2
      (a.1 ++ b.1 ++ c.1, c.2)
  | CfInstruction.jump instr => ProcessJumpInstruction instr s
  | CfInstruction.loopStart instr => ProcessLoopStartInstruction instr s
  | CfInstruction.loopEnd instr => ProcessLoopEndInstruction instr s
  | CfInstruction.call => ProcessCallInstruction s
  | CfInstruction.ret => ProcessReturnInstruction s
  | CfInstruction.alloc => ProcessAllocInstruction s

/-- Modelled from the spec: the base translator (outside this snapshot)
drives every control-flow instruction at dword index `i` as
`ProcessControlFlowInstructionBegin(i)`, the instruction's processor, then
`ProcessControlFlowInstructionEnd(i)`, before the next label's
`ProcessLabel(i + 1)` opens the following case. -/
def processControlFlowStep (ins : CfInstruction) (cf_index : Nat)
    (s : TState) : List Stmt × TState :=
  let s0 := ProcessControlFlowInstructionBegin s
  let a := processCf ins s0
  (a.1 ++ ProcessControlFlowInstructionEnd cf_index a.2, a.2)

/-- The control-flow instructions whose processor marks the program counter
as written (`cf_wrote_pc_ = true`): a final exec block, loop starts and loop
ends.  Jumps assign `xe_pc` inside their emitted branches but do not mark
it. -/
def setsTerminalPC : CfInstruction → Bool
  | CfInstruction.exec instr _ => instr.is_end
  | CfInstruction.loopStart _ => true
  | CfInstruction.loopEnd _ => true
  | _ => false

/-! ### Runtime model of the emitted loop statements

`Vec4` models the HLSL `int4 xe_aL` / `uint4 xe_loop_count` 4-lane stacks;
the functions below interpret, lane for lane, the statements emitted by
`ProcessLoopStartInstruction` and `ProcessLoopEndInstruction`. -/

/-- A 4-lane vector (`.x` is the active loop, deeper entries shifted towards
`.w`). -/
structure Vec4 (α : Type) where
  x : α
  y : α
  z : α
  w : α
deriving DecidableEq, Repr

/-- The runtime loop state: the loop index stack `xe_aL` and the loop counter
stack `xe_loop_count`. -/
structure LoopState where
  aL : Vec4 Int
  loop_count : Vec4 Nat
deriving DecidableEq, Repr

/-- The 32-bit `uint` decrement `--n` (wrapping to `0xFFFFFFFF` at zero). -/
def decU32 (n : Nat) : Nat := if n = 0 then 4294967295 else n - 1

/-- Sign extension of a byte, as computed by
`int(xe_loop_constants[i] << 8u) >> 24`. -/
def sext8 (b : Nat) : Int := if b < 128 then (b : Int) else (b : Int) - 256

/-- Interpretation of the loop-start statement group
`xe_loop_count.yzw = xe_loop_count.xyz; xe_loop_count.x = const & 0xFF;
xe_aL = xe_aL.xxyz;` and, unless repeating,
`xe_aL.x = int((const >> 8u) & 0xFFu);`. -/
def pushLoop (lconst : Nat) (is_repeat : Bool) (st : LoopState) : LoopState :=
  { loop_count :=
      { x := lconst % 256, y := st.loop_count.x, z := st.loop_count.y
        w := st.loop_count.z }
    aL :=
      if is_repeat then
        { x := st.aL.x, y := st.aL.x, z := st.aL.y, w := st.aL.z }
      else
        { x := ((lconst >>> 8) % 256 : Nat), y := st.aL.x, z := st.aL.y
          w := st.aL.z } }

/-- Interpretation of the `--xe_loop_count.x` decrement in the loop-end
test. -/
def decCountX (st : LoopState) : LoopState :=
  { st with loop_count :=
      { st.loop_count with x := decU32 st.loop_count.x } }

/-- Interpretation of the loop-exit statement group
`xe_loop_count.xyz = xe_loop_count.yzw; xe_loop_count.w = 0u;
xe_aL.xyz = xe_aL.yzw; xe_aL.w = 0;`. -/
def popLoop (st : LoopState) : LoopState :=
  { aL := { x := st.aL.y, y := st.aL.z, z := st.aL.w, w := 0 }
    loop_count :=
      { x := st.loop_count.y, y := st.loop_count.z, z := st.loop_count.w
        w := 0 } }

/-- Interpretation of `xe_aL.x += int(xe_loop_constants[i] << 8u) >> 24;`
on the continue branch of a loop end. -/
def stepALx (lconst : Nat) (st : LoopState) : LoopState :=
  { st with aL := { st.aL with x := st.aL.x + sext8 ((lconst >>> 16) % 256) } }

/-- The body/decrement/step cycle of a running loop: `n` is the number of
remaining body executions (it matches the runtime counter whenever the body
preserves the active counter lane, as balanced nested loops do).  The final
iteration decrements the counter to its exit value and stops before the index
step. -/
def loopIters (lconst : Nat) (body : LoopState → LoopState) :
    Nat → LoopState → LoopState
  | 0, st => st
  | 1, st => decCountX (body st)
  | n + 2, st =>
      loopIters lconst body (n + 1) (stepALx lconst (decCountX (body st)))

/-- Runtime denotation of one full loop built from the emitted loop-start and
(non-predicated) loop-end statements: push, then either skip on a zero count
(leaving the stacks pushed, as the emitted skip branch jumps past the loop
end) or run the body until the count reaches zero and pop. -/
def runLoop (lconst : Nat) (is_repeat : Bool) (body : LoopState → LoopState)
    (st : LoopState) : LoopState :=
  let st1 := pushLoop lconst is_repeat st
  if st1.loop_count.x = 0 then st1
  else popLoop (loopIters lconst body st1.loop_count.x st1)

/-- `N` nested loops, each given by its loop constant and repeat flag; the
innermost body is empty. -/
def runNestedLoops : List (Nat × Bool) → LoopState → LoopState
  | [], st => st
  | (lc, rep) :: rest, st => runLoop lc rep (runNestedLoops rest) st

/-- Zero the deepest `n` lanes of a 4-lane stack. -/
def truncVec {α : Type} (zero : α) : Nat → Vec4 α → Vec4 α
  | 0, v => v
  | 1, v => { x := v.x, y := v.y, z := v.z, w := zero }
  | 2, v => { x := v.x, y := v.y, z := zero, w := zero }
  | 3, v => { x := v.x, y := zero, z := zero, w := zero }
  | _ + 4, _ => { x := zero, y := zero, z := zero, w := zero }

/-- Zero the deepest `n` lanes of both loop stacks. -/
def truncState (n : Nat) (st : LoopState) : LoopState :=
  { aL := truncVec 0 n st.aL, loop_count := truncVec 0 n st.loop_count }

/-- Projection onto the deeper lanes (`y`, `z`, `w`) of both stacks — the
lanes the active-loop statements (`--xe_loop_count.x`, `xe_aL.x += ...`) do
not touch. -/
def tails (st : LoopState) : (Int × Int × Int) × (Nat × Nat × Nat) :=
  ((st.aL.y, st.aL.z, st.aL.w),
   (st.loop_count.y, st.loop_count.z, st.loop_count.w))

/-! ### Runtime model of the signed-normalized 8_8_8_8 decode

Interpretation of the statements emitted for `VertexFormat::k_8_8_8_8` with
`is_signed` and not `is_integer`:
`xe_vertex_element = (xe_vertex_element.xxxx >> uint4(0u, 8u, 16u, 24u)) & 255u;`,
`xe_pv = float4(int4(xe_vertex_element << 24u) >> 24);`,
`xe_pv = max(xe_pv * (1.0 / 127.0), (-1.0).xxxx);`,
with the float arithmetic idealized over `ℚ` (the clamp returns the exact
literal `-1.0`, so the clamped extreme is representation-exact). -/

/-- Lane extraction `(word >> (8 * i)) & 255`. -/
def vfetch8888Lane (word : Nat) (i : Fin 4) : Nat := (word >>> (8 * i.val)) % 256

/-- The decoded signed-normalized value of one lane. -/
def vfetch8888SignedNorm (word : Nat) (i : Fin 4) : ℚ :=
  max ((sext8 (vfetch8888Lane word i) : ℚ) * (1 / 127)) (-1)

/-! ### Concrete instructions used by counterexamples and witnesses -/

/-- A concrete unconditional jump: dword address 5, target address 7. -/
def c1Jump : ParsedJumpInstruction :=
  { type := JumpType.kUnconditional, dword_index := 5, target_address := 7,
    bool_constant_index := 0, condition := true }

/-- A concrete two-component `xy` register operand. -/
def c6Op : InstructionOperand :=
  { storage_source := InstructionStorageSource.kRegister
    storage_index := 0
    storage_addressing_mode := InstructionStorageAddressingMode.kStatic
    is_negated := false
    is_absolute_value := false
    component_count := 2
    components := fun i => if i = 0 then SwizzleSource.kX else SwizzleSource.kY }

/-- A plain register operand used by concrete witness instructions. -/
def regOp : InstructionOperand :=
  { storage_source := InstructionStorageSource.kRegister
    storage_index := 0
    storage_addressing_mode := InstructionStorageAddressingMode.kStatic
    is_negated := false
    is_absolute_value := false
    component_count := 4
    components := fun _ => SwizzleSource.kX }

/-- A plain full-mask register result used by concrete witness
instructions. -/
def regResult : InstructionResult :=
  { storage_target := InstructionStorageTarget.kRegister
    storage_index := 0
    storage_addressing_mode := InstructionStorageAddressingMode.kStatic
    is_clamped := false
    write_mask := fun _ => true
    components := fun _ => SwizzleSource.kX }

/-- A concrete predicated `setp_eq` scalar instruction. -/
def c9ScalarInstr : ParsedAluInstruction :=
  { type := AluType.kScalar
    vector_opcode := AluVectorOpcode.kAdd
    scalar_opcode := AluScalarOpcode.kSetpEq
    is_predicated := true
    predicate_condition := true
    operand_count := 1
    operands := fun _ => regOp
    result := regResult }

/-- A concrete `setp_eq_push` vector instruction. -/
def c9VectorInstr : ParsedAluInstruction :=
  { type := AluType.kVector
    vector_opcode := AluVectorOpcode.kSetpEqPush
    scalar_opcode := AluScalarOpcode.kAdds
    is_predicated := false
    predicate_condition := true
    operand_count := 2
    operands := fun _ => regOp
    result := regResult }

/-- A concrete malformed vertex fetch: its second operand is a register, not
a vertex-fetch constant. -/
def c4BadVfetch : ParsedVertexFetchInstruction :=
  { operand_count := 2
    operands := fun _ => regOp
    attributes :=
      { data_format := VertexFormat.k_8_8_8_8, is_signed := true
        is_integer := false, stride := 0, offset := 0 }
    is_predicated := false
    predicate_condition := true
    result := regResult }

/-! ### Helper lemmas: which state fields the emitters can touch -/

theorem EmitLoadOperand_state (i : Nat) (op : InstructionOperand) (s : TState) :
    (EmitLoadOperand i op s).2 = s ∨
      (EmitLoadOperand i op s).2 = { s with assert_failed := true } := by
  unfold EmitLoadOperand
  cases storageIndexMax op.storage_source with
  | none => right; rfl
  | some mx => left; rfl

theorem EmitLoadOperand_flags (i : Nat) (op : InstructionOperand) (s : TState) :
    ((EmitLoadOperand i op s).2).cf_wrote_pc = s.cf_wrote_pc ∧
    ((EmitLoadOperand i op s).2).cf_exec_pred = s.cf_exec_pred ∧
    ((EmitLoadOperand i op s).2).cf_exec_pred_cond = s.cf_exec_pred_cond := by
  rcases EmitLoadOperand_state i op s with h | h <;> rw [h] <;>
    exact ⟨rfl, rfl, rfl⟩

theorem emitLoads_flags (ops : Nat → InstructionOperand) :
    ∀ (n : Nat) (s : TState),
    ((emitLoads ops n s).2).cf_wrote_pc = s.cf_wrote_pc ∧
    ((emitLoads ops n s).2).cf_exec_pred = s.cf_exec_pred ∧
    ((emitLoads ops n s).2).cf_exec_pred_cond = s.cf_exec_pred_cond := by
  intro n
  induction n with
  | zero => intro s; exact ⟨rfl, rfl, rfl⟩
  | succ k ih =>
      intro s
      have ha := ih s
      have hb := EmitLoadOperand_flags k (ops k) (emitLoads ops k s).2
      simp only [emitLoads]
      exact ⟨hb.1.trans ha.1, hb.2.1.trans ha.2.1, hb.2.2.trans ha.2.2⟩

theorem EmitStoreResult_state (r : InstructionResult) (b : Bool) (s : TState) :
    (EmitStoreResult r b s).2 = s ∨
      (EmitStoreResult r b s).2 = { s with writes_depth := true } := by
  unfold EmitStoreResult
  split
  · left; rfl
  · split
    · left; rfl
    · dsimp only
      split
      · right; rfl
      · left; rfl

theorem EmitStoreResult_flags (r : InstructionResult) (b : Bool) (s : TState) :
    ((EmitStoreResult r b s).2).cf_wrote_pc = s.cf_wrote_pc ∧
    ((EmitStoreResult r b s).2).cf_exec_pred = s.cf_exec_pred ∧
    ((EmitStoreResult r b s).2).cf_exec_pred_cond = s.cf_exec_pred_cond := by
  rcases EmitStoreResult_state r b s with h | h <;> rw [h] <;>
    exact ⟨rfl, rfl, rfl⟩

theorem ProcessVectorAluInstruction_wrote_pc (instr : ParsedAluInstruction)
    (s : TState) :
    ((ProcessVectorAluInstruction instr s).2).cf_wrote_pc = s.cf_wrote_pc := by
  unfold ProcessVectorAluInstruction
  dsimp only
  refine (EmitStoreResult_flags instr.result false _).1.trans ?_
  have hl := (emitLoads_flags instr.operands instr.operand_count s).1
  split <;> split <;> simpa using hl

theorem ProcessScalarAluInstruction_wrote_pc (instr : ParsedAluInstruction)
    (s : TState) :
    ((ProcessScalarAluInstruction instr s).2).cf_wrote_pc = s.cf_wrote_pc := by
  unfold ProcessScalarAluInstruction
  dsimp only
  refine (EmitStoreResult_flags instr.result true _).1.trans ?_
  have hl := (emitLoads_flags instr.operands instr.operand_count s).1
  split <;> simpa using hl

theorem processInner_wrote_pc (ins : InnerInstruction) (s : TState) :
    ((processInner ins s).2).cf_wrote_pc = s.cf_wrote_pc := by
  cases ins with
  | alu instr =>
      cases h : instr.type with
      | kNop => simp only [processInner, ProcessAluInstruction, h]
      | kVector =>
          simp only [processInner, ProcessAluInstruction, h]
          exact ProcessVectorAluInstruction_wrote_pc instr s
      | kScalar =>
          simp only [processInner, ProcessAluInstruction, h]
          exact ProcessScalarAluInstruction_wrote_pc instr s
  | vertexFetch instr =>
      simp only [processInner, ProcessVertexFetchInstruction]
      split
      · rfl
      · dsimp only
        refine (EmitStoreResult_flags instr.result false _).1.trans ?_
        exact (EmitLoadOperand_flags 0 (instr.operands 0) s).1
  | textureFetch instr =>
      simp only [processInner, ProcessTextureFetchInstruction]
      exact (EmitStoreResult_flags instr.result false s).1

theorem processInnerList_wrote_pc (body : List InnerInstruction) :
    ∀ s : TState,
    ((processInnerList body s).2).cf_wrote_pc = s.cf_wrote_pc := by
  induction body with
  | nil => intro s; rfl
  | cons i rest ih =>
      intro s
      simp only [processInnerList]
      exact (ih (processInner i s).2).trans (processInner_wrote_pc i s)

/-! ### Claim theorems -/

/-- C10: for every `Result` whose storage target is `kNone`, `EmitStoreResult`
emits no text and leaves the entire translator state (including
`writes_depth_`) unchanged, for every write mask, swizzle, addressing mode and
saturation flag. -/
theorem c10_store_none (result : InstructionResult) (source_is_scalar : Bool)
    (s : TState)
    (h : result.storage_target = InstructionStorageTarget.kNone) :
    EmitStoreResult result source_is_scalar s = ([], s) := by
  unfold EmitStoreResult
  split
  · rfl
  · rw [h]
    rfl

/-- Witness for C10: a concrete `kNone` result with a full write mask and
saturation emits nothing and changes nothing. -/
theorem c10_store_none_witness :
    EmitStoreResult
      { storage_target := InstructionStorageTarget.kNone
        storage_index := 3
        storage_addressing_mode :=
          InstructionStorageAddressingMode.kAddressRelative
        is_clamped := true
        write_mask := fun _ => true
        components := fun _ => SwizzleSource.kW } false initState =
      ([], initState) :=
  c10_store_none _ false initState rfl

/-- C5: a `Result` with an all-false write mask emits no assignment at all,
and for the scalar-only targets (point size, depth) a false first write-mask
component alone already suppresses the assignment. -/
theorem c5_noop_write (result : InstructionResult) (source_is_scalar : Bool)
    (s : TState) :
    ((∀ i, result.write_mask i = false) →
      EmitStoreResult result source_is_scalar s = ([], s)) ∧
    (storageIsScalar result.storage_target = true →
      result.write_mask 0 = false →
      EmitStoreResult result source_is_scalar s = ([], s)) := by
  constructor
  · intro h
    have hm : storeMaskEmpty result = true := by
      unfold storeMaskEmpty has_any_writes
      rw [h 0, h 1, h 2, h 3]
      cases storageIsScalar result.storage_target <;> simp
    unfold EmitStoreResult
    rw [hm]
    rfl
  · intro hs h0
    have hm : storeMaskEmpty result = true := by
      unfold storeMaskEmpty
      rw [hs, h0]
      rfl
    unfold EmitStoreResult
    rw [hm]
    rfl

/-- Witness for C5: a concrete register store with an all-false mask emits
nothing, and a concrete depth store whose first mask component is false emits
nothing. -/
theorem c5_noop_write_witness :
    EmitStoreResult
      { storage_target := InstructionStorageTarget.kRegister
        storage_index := 2
        storage_addressing_mode := InstructionStorageAddressingMode.kStatic
        is_clamped := false
        write_mask := fun _ => false
        components := fun _ => SwizzleSource.kX } false initState =
      ([], initState) ∧
    EmitStoreResult
      { storage_target := InstructionStorageTarget.kDepth
        storage_index := 0
        storage_addressing_mode := InstructionStorageAddressingMode.kStatic
        is_clamped := false
        write_mask := fun _ => false
        components := fun _ => SwizzleSource.kX } true initState =
      ([], initState) :=
  ⟨(c5_noop_write _ false initState).1 (fun _ => rfl),
   (c5_noop_write _ true initState).2 rfl rfl⟩

theorem ProcessExecInstructionBegin_wrote_pc (instr : ParsedExecInstruction)
    (s : TState) :
    ((ProcessExecInstructionBegin instr s).2).cf_wrote_pc = s.cf_wrote_pc := by
  cases h : instr.type <;> simp [ProcessExecInstructionBegin, h]

theorem processCf_wrote_pc (ins : CfInstruction) (t : TState) :
    ((processCf ins t).2).cf_wrote_pc = (setsTerminalPC ins || t.cf_wrote_pc) := by
  cases ins with
  | cnop => rfl
  | exec instr body =>
      simp only [processCf, setsTerminalPC]
      cases h : instr.is_end with
      | true => simp [ProcessExecInstructionEnd, h]
      | false =>
          simp only [ProcessExecInstructionEnd, h, Bool.false_eq_true,
            if_false, Bool.false_or]
          rw [processInnerList_wrote_pc, ProcessExecInstructionBegin_wrote_pc]
  | jump instr => rfl
  | loopStart instr => rfl
  | loopEnd instr => rfl
  | call => rfl
  | ret => rfl
  | alloc => rfl

/-- C1 (amended): a control-flow instruction suppresses the fallthrough
synthesis exactly when its processor marks the synthetic counter as
terminally written (`cf_wrote_pc_`: a final exec block, loop start, loop
end); for every other control-flow instruction — including jumps, which emit
explicit counter assignments inside their branches without marking it —
exactly one fallthrough assignment `xe_pc = dword_index + 1` followed by the
case terminator `break` is synthesized before the next label's case opens,
together with the fallthrough comment at the end of the instruction's own
case. -/
theorem c1_fallthrough_synthesis (ins : CfInstruction) (i : Nat) (s : TState) :
    ((processControlFlowStep ins i s).2).cf_wrote_pc = setsTerminalPC ins ∧
    ProcessLabel (i + 1) (processControlFlowStep ins i s).2 =
      (if setsTerminalPC ins then []
       else [Stmt.assignPC (i + 1), Stmt.brk]) ++ [Stmt.caseLabel (i + 1)] ∧
    ProcessControlFlowInstructionEnd i (processControlFlowStep ins i s).2 =
      (if setsTerminalPC ins then []
       else [Stmt.fallthroughComment (i + 1)]) := by
  have h1 : ((processControlFlowStep ins i s).2).cf_wrote_pc =
      setsTerminalPC ins := by
    show ((processCf ins (ProcessControlFlowInstructionBegin s)).2).cf_wrote_pc = _
    rw [processCf_wrote_pc]
    simp [ProcessControlFlowInstructionBegin]
  refine ⟨h1, ?_, ?_⟩
  · unfold ProcessLabel
    rw [if_pos (Nat.succ_ne_zero i), h1]
  · unfold ProcessControlFlowInstructionEnd
    rw [h1]

/-- C1 counterexample: an unconditional jump at dword 5 emits an explicit
assignment `xe_pc = 7` to the synthetic counter, and yet the fallthrough
synthesis `xe_pc = 6; break;` is still generated when the next label's case
opens (because `ProcessJumpInstruction` never sets `cf_wrote_pc_`), refuting
the claim that an explicit counter assignment suppresses the synthesis. -/
theorem c1_counterexample :
    Stmt.assignPC 7 ∈
      (processControlFlowStep (CfInstruction.jump c1Jump) 5 initState).1 ∧
    ProcessLabel 6
        (processControlFlowStep (CfInstruction.jump c1Jump) 5 initState).2 =
      [Stmt.assignPC 6, Stmt.brk, Stmt.caseLabel 6] := by
  constructor
  · decide
  · decide

/-- C2: a jump conditioned on boolean constant 40 at dword address 5 emits a
test of boolean word `40 >> 5 = 1` at bit `40 & 31 = 8`, an if-branch
assigning the counter to the jump target and an else-branch assigning the
fallthrough address 6; an unconditional jump emits no else-branch. -/
theorem c2_jump_emission (t : Nat) (c : Bool) (s : TState)
    (j : ParsedJumpInstruction) (hu : j.type = JumpType.kUnconditional) :
    (ProcessJumpInstruction
      { type := JumpType.kConditional, dword_index := 5, target_address := t,
        bool_constant_index := 40, condition := c } s).1 =
      [Stmt.disasm, Stmt.ifBoolConstantTest 1 8 c, Stmt.assignPC t, Stmt.brk,
       Stmt.elseBlock, Stmt.assignPC 6, Stmt.closeBlock] ∧
    (ProcessJumpInstruction j s).1 =
      [Stmt.disasm, Stmt.openBlock, Stmt.assignPC j.target_address, Stmt.brk,
       Stmt.closeBlock] := by
  constructor
  · simp [ProcessJumpInstruction]
  · simp [ProcessJumpInstruction, hu]

/-- Witness for C2: the unconditional-jump half applied to the concrete jump
at dword 5 targeting address 7. -/
theorem c2_jump_emission_witness :
    (ProcessJumpInstruction c1Jump initState).1 =
      [Stmt.disasm, Stmt.openBlock, Stmt.assignPC 7, Stmt.brk,
       Stmt.closeBlock] :=
  (c2_jump_emission 7 true initState c1Jump rfl).2

/-- C6: a partial swizzle is padded by replicating the last requested
component over all four lanes (`x` becomes `xxxx`, `xy` becomes `xyyy`),
while integer- and boolean-constant operands are always broadcast `.xxxx`
and never honor a swizzle. -/
theorem c6_swizzle_padding (op : InstructionOperand) :
    (op.storage_source ≠ InstructionStorageSource.kConstantInt →
     op.storage_source ≠ InstructionStorageSource.kConstantBool →
      ((op.component_count = 1 →
        (operandExpr op).swizzle =
          [op.components 0, op.components 0, op.components 0,
           op.components 0]) ∧
       (op.component_count = 2 →
        (operandExpr op).swizzle =
          [op.components 0, op.components 1, op.components 1,
           op.components 1]))) ∧
    ((op.storage_source = InstructionStorageSource.kConstantInt ∨
      op.storage_source = InstructionStorageSource.kConstantBool) →
      (operandExpr op).swizzle =
        [SwizzleSource.kX, SwizzleSource.kX, SwizzleSource.kX,
         SwizzleSource.kX]) := by
  constructor
  · intro h1 h2
    have hne : ¬(op.storage_source = InstructionStorageSource.kConstantInt ∨
        op.storage_source = InstructionStorageSource.kConstantBool) := by
      rintro (h | h) <;> [exact h1 h; exact h2 h]
    constructor
    · intro hc
      have hstd : is_standard_swizzle op = false := by
        simp [is_standard_swizzle, hc]
      show operandSwizzle op = _
      unfold operandSwizzle
      rw [if_neg hne, hstd, hc]
      simp [List.range_succ]
    · intro hc
      have hstd : is_standard_swizzle op = false := by
        simp [is_standard_swizzle, hc]
      show operandSwizzle op = _
      unfold operandSwizzle
      rw [if_neg hne, hstd, hc]
      simp [List.range_succ]
  · intro h
    show operandSwizzle op = _
    unfold operandSwizzle
    rw [if_pos h]

/-- Witness for C6: the `xy` swizzle on a register operand pads to `xyyy`. -/
theorem c6_swizzle_padding_witness :
    (operandExpr c6Op).swizzle =
      [SwizzleSource.kX, SwizzleSource.kY, SwizzleSource.kY,
       SwizzleSource.kY] :=
  ((c6_swizzle_padding c6Op).1 (by decide) (by decide)).2 rfl

theorem AddSRVBinding_idem (l : List (Nat × Nat)) (k f : Nat) :
    AddSRVBinding (AddSRVBinding l k f).2 k f = AddSRVBinding l k f := by
  induction l with
  | nil => simp [AddSRVBinding]
  | cons b rest ih =>
      by_cases hb : b.1 = k ∧ b.2 = f
      · simp [AddSRVBinding, hb]
      · simp [AddSRVBinding, hb, ih]

theorem AddSRVBinding_fresh (l : List (Nat × Nat)) :
    ∀ k f : Nat, (k, f) ∉ l →
      AddSRVBinding l k f = (l.length, l ++ [(k, f)]) := by
  induction l with
  | nil => intro k f _; simp [AddSRVBinding]
  | cons b rest ih =>
      intro k f h
      have hb : ¬(b.1 = k ∧ b.2 = f) := by
        rintro ⟨h1, h2⟩
        exact h (by rw [← h1, ← h2]; exact List.mem_cons_self b rest)
      have hr : (k, f) ∉ rest := fun hm => h (List.mem_cons_of_mem b hm)
      simp [AddSRVBinding, hb, ih k f hr]

theorem AddSRVBinding_mem (l : List (Nat × Nat)) :
    ∀ k f : Nat, (k, f) ∈ l → (AddSRVBinding l k f).2 = l := by
  induction l with
  | nil => intro k f h; cases h
  | cons b rest ih =>
      intro k f h
      by_cases hb : b.1 = k ∧ b.2 = f
      · simp [AddSRVBinding, hb]
      · have hr : (k, f) ∈ rest := by
          rcases List.mem_cons.mp h with he | hm
          · exact absurd ⟨by rw [← he], by rw [← he]⟩ hb
          · exact hm
        simp [AddSRVBinding, hb, ih k f hr]

theorem AddSampler_idem (sl : List Nat) (g : Nat) :
    AddSampler (AddSampler sl g).2 g = AddSampler sl g := by
  induction sl with
  | nil => simp [AddSampler]
  | cons c rest ih =>
      by_cases hc : c = g
      · simp [AddSampler, hc]
      · simp [AddSampler, hc, ih]

theorem AddSampler_fresh (sl : List Nat) :
    ∀ g : Nat, g ∉ sl → AddSampler sl g = (sl.length, sl ++ [g]) := by
  induction sl with
  | nil => intro g _; simp [AddSampler]
  | cons c rest ih =>
      intro g h
      have hc : ¬c = g := fun he => h (by rw [he]; exact List.mem_cons_self g rest)
      have hr : g ∉ rest := fun hm => h (List.mem_cons_of_mem c hm)
      simp [AddSampler, hc, ih g hr]

theorem AddSampler_mem (sl : List Nat) :
    ∀ g : Nat, g ∈ sl → (AddSampler sl g).2 = sl := by
  induction sl with
  | nil => intro g h; cases h
  | cons c rest ih =>
      intro g h
      by_cases hc : c = g
      · simp [AddSampler, hc]
      · have hr : g ∈ rest := by
          rcases List.mem_cons.mp h with he | hm
          · exact absurd he.symm hc
          · exact hm
        simp [AddSampler, hc, ih g hr]

/-- C7: within one translation the binding allocator is deterministic and
first-seen ordered — a repeated (kind, fetch-constant) key returns the same
dense index and leaves the table unchanged, while a fresh key is appended at
the end and receives the next consecutive (previously unused) index; the
sampler allocator keyed by fetch constant alone behaves the same way. -/
theorem c7_binding_allocator (l : List (Nat × Nat)) (k f : Nat)
    (sl : List Nat) (g : Nat) :
    (AddSRVBinding (AddSRVBinding l k f).2 k f = AddSRVBinding l k f) ∧
    ((k, f) ∉ l → AddSRVBinding l k f = (l.length, l ++ [(k, f)])) ∧
    ((k, f) ∈ l → (AddSRVBinding l k f).2 = l) ∧
    (AddSampler (AddSampler sl g).2 g = AddSampler sl g) ∧
    (g ∉ sl → AddSampler sl g = (sl.length, sl ++ [g])) ∧
    (g ∈ sl → (AddSampler sl g).2 = sl) :=
  ⟨AddSRVBinding_idem l k f, AddSRVBinding_fresh l k f,
   AddSRVBinding_mem l k f, AddSampler_idem sl g, AddSampler_fresh sl g,
   AddSampler_mem sl g⟩

/-- Witness for C7: adding the fresh key (kind 1, fetch constant 5) to a
table holding (kind 0, fetch constant 5) appends it with dense index 1, and
adding fetch constant 7 to a sampler table holding 3 appends it with index
1. -/
theorem c7_binding_allocator_witness :
    AddSRVBinding [(0, 5)] 1 5 = (1, [(0, 5), (1, 5)]) ∧
    AddSampler [3] 7 = (1, [3, 7]) :=
  ⟨(c7_binding_allocator [(0, 5)] 1 5 [3] 7).2.1 (by decide),
   (c7_binding_allocator [(0, 5)] 1 5 [3] 7).2.2.2.2.1 (by decide)⟩

/-- C8: in the emitted signed-normalized `8_8_8_8` decode (idealized over
exact rational arithmetic — the clamp returns the exact literal `-1.0`), a
lane holding the minimum representable signed byte `-128` (bit pattern 128)
decodes to exactly `-1`, and no lane ever decodes below `-1`. -/
theorem c8_snorm_clamp (word : Nat) (i : Fin 4)
    (h : vfetch8888Lane word i = 128) :
    vfetch8888SignedNorm word i = -1 ∧
      ∀ (w : Nat) (j : Fin 4), -1 ≤ vfetch8888SignedNorm w j := by
  constructor
  · show max ((sext8 (vfetch8888Lane word i) : ℚ) * (1 / 127)) (-1) = -1
    rw [h]
    have h2 : ((sext8 128 : Int) : ℚ) = -128 := by norm_num [sext8]
    rw [h2]
    exact max_eq_right (by norm_num)
  · intro w j
    exact le_max_right _ _

/-- Witness for C8: the word whose low byte is `0x80` decodes its first lane
to exactly `-1`. -/
theorem c8_snorm_clamp_witness :
    vfetch8888Lane 128 0 = 128 ∧ vfetch8888SignedNorm 128 0 = -1 :=
  ⟨by decide, (c8_snorm_clamp 128 0 (by decide)).1⟩

theorem EmitLoadOperand_no_close (i : Nat) (op : InstructionOperand)
    (s : TState) : Stmt.closeBlock ∉ (EmitLoadOperand i op s).1 := by
  unfold EmitLoadOperand
  cases storageIndexMax op.storage_source with
  | none => simp
  | some mx =>
      dsimp only
      cases op.storage_addressing_mode <;> simp

theorem emitLoads_no_close (ops : Nat → InstructionOperand) :
    ∀ (n : Nat) (s : TState), Stmt.closeBlock ∉ (emitLoads ops n s).1 := by
  intro n
  induction n with
  | zero => intro s; simp [emitLoads]
  | succ k ih =>
      intro s
      simp only [emitLoads, List.mem_append]
      rintro (h | h)
      · exact ih s h
      · exact EmitLoadOperand_no_close k (ops k) (emitLoads ops k s).2 h

theorem EmitStoreResult_no_close (r : InstructionResult) (b : Bool)
    (s : TState) : Stmt.closeBlock ∉ (EmitStoreResult r b s).1 := by
  unfold EmitStoreResult
  split
  · simp
  · split
    · simp
    · dsimp only
      simp

theorem BeginPredicatedInstruction_not_opened (p c : Bool) (s : TState)
    (h : (BeginPredicatedInstruction p c s).2 = false) :
    (BeginPredicatedInstruction p c s).1 = [] := by
  unfold BeginPredicatedInstruction at h ⊢
  by_cases hcond :
      (p && (!s.cf_exec_pred || s.cf_exec_pred_cond != c)) = true
  · rw [if_pos hcond] at h
    exact absurd h (by simp)
  · rw [if_neg hcond]

/-- C9: a predicate guard is opened exactly when the instruction is
predicated and not covered by an enclosing predicate-guarded exec block of
the same polarity; an opened guard is closed symmetrically as the final
statement after the result write (and no close is emitted when no guard was
opened); every predicate-setting scalar or vector opcode clears the
exec-level predicate fast path, so the next predicated instruction in the
same exec block opens its own guard. -/
theorem c9_predicate_guard (p c : Bool) (s : TState)
    (instrS instrV : ParsedAluInstruction)
    (hs : scalarOpcodeSetsPredicate instrS.scalar_opcode = true)
    (hv : vectorOpcodeSetsPredicate instrV.vector_opcode = true) :
    ((BeginPredicatedInstruction p c s).2 = true ↔
      p = true ∧ ¬(s.cf_exec_pred = true ∧ s.cf_exec_pred_cond = c)) ∧
    (EndPredicatedInstruction true = [Stmt.closeBlock] ∧
      EndPredicatedInstruction false = []) ∧
    ((ProcessScalarAluInstruction instrS s).2.cf_exec_pred = false) ∧
    ((ProcessVectorAluInstruction instrV s).2.cf_exec_pred = false) ∧
    (∀ c2 : Bool,
      (BeginPredicatedInstruction true c2
        (ProcessScalarAluInstruction instrS s).2).2 = true) ∧
    ((BeginPredicatedInstruction instrS.is_predicated
        instrS.predicate_condition s).2 = true →
      ∃ pre, (ProcessScalarAluInstruction instrS s).1 =
        pre ++ [Stmt.closeBlock]) ∧
    ((BeginPredicatedInstruction instrS.is_predicated
        instrS.predicate_condition s).2 = false →
      Stmt.closeBlock ∉ (ProcessScalarAluInstruction instrS s).1) := by
  have h3 : (ProcessScalarAluInstruction instrS s).2.cf_exec_pred = false := by
    unfold ProcessScalarAluInstruction
    dsimp only
    rw [hs]
    simp only [if_true]
    exact ((EmitStoreResult_flags instrS.result true _).2.1).trans rfl
  refine ⟨?_, ⟨rfl, rfl⟩, h3, ?_, ?_, ?_, ?_⟩
  · cases p <;> cases hpr : s.cf_exec_pred <;>
      cases hc : s.cf_exec_pred_cond <;> cases c <;>
      simp [BeginPredicatedInstruction, hpr, hc]
  · unfold ProcessVectorAluInstruction
    dsimp only
    rw [hv]
    simp only [if_true]
    refine ((EmitStoreResult_flags instrV.result false _).2.1).trans ?_
    split <;> rfl
  · intro c2
    simp [BeginPredicatedInstruction, h3]
  · intro ho
    refine ⟨(BeginPredicatedInstruction instrS.is_predicated
        instrS.predicate_condition s).1 ++
      (emitLoads instrS.operands instrS.operand_count s).1 ++
      [Stmt.aluScalar instrS.scalar_opcode] ++
      (EmitStoreResult instrS.result true
        (if scalarOpcodeSetsPredicate instrS.scalar_opcode = true then
          { (emitLoads instrS.operands instrS.operand_count s).2 with
              cf_exec_pred := false }
         else (emitLoads instrS.operands instrS.operand_count s).2)).1, ?_⟩
    unfold ProcessScalarAluInstruction
    dsimp only
    rw [ho]
    simp [EndPredicatedInstruction]
  · intro ho
    have hg := BeginPredicatedInstruction_not_opened _ _ _ ho
    unfold ProcessScalarAluInstruction
    dsimp only
    rw [hg, ho]
    simp [EndPredicatedInstruction, List.mem_append, emitLoads_no_close,
      EmitStoreResult_no_close]

/-- Witness for C9: the concrete predicate-setting instructions clear the
exec-level fast path, and the next predicated instruction opens a guard. -/
theorem c9_predicate_guard_witness :
    (ProcessScalarAluInstruction c9ScalarInstr initState).2.cf_exec_pred =
        false ∧
    (ProcessVectorAluInstruction c9VectorInstr initState).2.cf_exec_pred =
        false ∧
    (BeginPredicatedInstruction true true
      (ProcessScalarAluInstruction c9ScalarInstr initState).2).2 = true :=
  ⟨(c9_predicate_guard true true initState c9ScalarInstr c9VectorInstr
      (by decide) (by decide)).2.2.1,
   (c9_predicate_guard true true initState c9ScalarInstr c9VectorInstr
      (by decide) (by decide)).2.2.2.1,
   (c9_predicate_guard true true initState c9ScalarInstr c9VectorInstr
      (by decide) (by decide)).2.2.2.2.1 true⟩

/-- C4 (amended): a vertex-fetch instruction whose second operand does not
name a vertex-fetch constant signals an assertion-class internal failure
(`assert_always`) and refuses to proceed; the emitted text keeps only the
instruction's disassembly comment as an inert marker, and no translation
error is recorded for the caller. -/
theorem c4_vfetch_malformed (instr : ParsedVertexFetchInstruction)
    (s : TState)
    (h : instr.operand_count < 2 ∨
      (instr.operands 1).storage_source ≠
        InstructionStorageSource.kVertexFetchConstant) :
    ProcessVertexFetchInstruction instr s =
      ([Stmt.disasm], { s with assert_failed := true }) := by
  unfold ProcessVertexFetchInstruction
  rw [if_pos h]

/-- C4 counterexample: on the malformed vertex fetch nothing is recorded for
the caller (the translation-error count stays 0 and no translation-error
marker is emitted); only the disassembly comment is left, refuting the claim
that the failure is recorded for the caller. -/
theorem c4_counterexample :
    (ProcessVertexFetchInstruction c4BadVfetch initState).2.error_count = 0 ∧
    Stmt.translationError ∉
      (ProcessVertexFetchInstruction c4BadVfetch initState).1 ∧
    (ProcessVertexFetchInstruction c4BadVfetch initState).1 =
      [Stmt.disasm] := by
  refine ⟨?_, ?_, ?_⟩ <;> decide

/-- Witness for C4: the amended theorem applied to the concrete malformed
vertex fetch. -/
theorem c4_vfetch_malformed_witness :
    ProcessVertexFetchInstruction c4BadVfetch initState =
      ([Stmt.disasm], { initState with assert_failed := true }) :=
  c4_vfetch_malformed c4BadVfetch initState (by decide)

theorem tails_truncState (m : Nat) (hm : m ≤ 3) (u v : LoopState)
    (h : tails u = tails v) :
    tails (truncState m u) = tails (truncState m v) := by
  simp only [tails, Prod.mk.injEq] at h
  obtain ⟨⟨h1, h2, h3⟩, h4, h5, h6⟩ := h
  interval_cases m <;>
    simp [tails, truncState, truncVec, h1, h2, h3, h4, h5, h6]

theorem tails_truncState_idem (m : Nat) (hm : m ≤ 3) (st : LoopState) :
    tails (truncState m (truncState m st)) = tails (truncState m st) := by
  interval_cases m <;> simp [tails, truncState, truncVec]

theorem popLoop_tails (u v : LoopState) (h : tails u = tails v) :
    popLoop u = popLoop v := by
  simp only [tails, Prod.mk.injEq] at h
  obtain ⟨⟨h1, h2, h3⟩, h4, h5, h6⟩ := h
  simp [popLoop, h1, h2, h3, h4, h5, h6]

theorem tails_decCountX (st : LoopState) : tails (decCountX st) = tails st := by
  simp [tails, decCountX]

theorem tails_stepALx (lc : Nat) (st : LoopState) :
    tails (stepALx lc st) = tails st := by
  simp [tails, stepALx]

theorem loopIters_tails (lc : Nat) (m : Nat) (hm : m ≤ 3)
    (f : LoopState → LoopState) (hb : ∀ t, f t = truncState m t) :
    ∀ n : Nat, 1 ≤ n → ∀ st : LoopState,
      tails (loopIters lc f n st) = tails (truncState m st) := by
  intro n
  induction n with
  | zero => intro h; exact absurd h (by omega)
  | succ k ih =>
      intro _ st
      cases k with
      | zero =>
          show tails (decCountX (f st)) = _
          rw [hb, tails_decCountX]
      | succ j =>
          show tails (loopIters lc f (j + 1)
            (stepALx lc (decCountX (f st)))) = _
          rw [ih (by omega)]
          have hu : tails (stepALx lc (decCountX (f st))) =
              tails (truncState m st) := by
            rw [hb, tails_stepALx, tails_decCountX]
          calc tails (truncState m (stepALx lc (decCountX (f st))))
              = tails (truncState m (truncState m st)) :=
                tails_truncState m hm _ _ hu
            _ = tails (truncState m st) := tails_truncState_idem m hm st

theorem runLoop_truncState (lc : Nat) (rep : Bool) (m : Nat) (hm : m ≤ 3)
    (f : LoopState → LoopState) (hb : ∀ t, f t = truncState m t)
    (hcount : 1 ≤ lc % 256) (st : LoopState) :
    runLoop lc rep f st = truncState (m + 1) st := by
  unfold runLoop
  dsimp only
  have hne : (pushLoop lc rep st).loop_count.x ≠ 0 := by
    show lc % 256 ≠ 0
    omega
  rw [if_neg hne]
  have ht := loopIters_tails lc m hm f hb
    ((pushLoop lc rep st).loop_count.x) hcount (pushLoop lc rep st)
  rw [popLoop_tails _ _ ht]
  interval_cases m <;> cases rep <;>
    simp [popLoop, truncState, truncVec, pushLoop]

theorem runNestedLoops_truncState :
    ∀ specs : List (Nat × Bool), specs.length ≤ 4 →
      (∀ p ∈ specs, 1 ≤ p.1 % 256) →
      ∀ st : LoopState, runNestedLoops specs st = truncState specs.length st := by
  intro specs
  induction specs with
  | nil => intro _ _ st; rfl
  | cons hd rest ih =>
      obtain ⟨lc, rep⟩ := hd
      intro hlen hcounts st
      have hm : rest.length ≤ 3 := by
        simp only [List.length_cons] at hlen
        omega
      have hrest : ∀ t, runNestedLoops rest t = truncState rest.length t :=
        fun t => ih (by omega)
          (fun p hp => hcounts p (List.mem_cons_of_mem _ hp)) t
      show runLoop lc rep (runNestedLoops rest) st = _
      rw [runLoop_truncState lc rep rest.length hm _ hrest
        (hcounts (lc, rep) (List.mem_cons_self _ _)) st]
      rfl

/-- C3 (amended): executing `N ≤ 4` nested loops (each loop's count, the low
byte of its loop constant, at least 1, so every loop body runs until its
count reaches zero) zeroes the deepest `N` lanes of the 4-deep index and
count stacks and restores all shallower lanes; consequently the stacks return
exactly to their pre-loop values whenever their deepest `N` lanes were zero
beforehand (in particular from the initial all-zero state), but not from an
arbitrary starting state — the loop-end pop writes zeros into the vacated
lanes. -/
theorem c3_loop_stack_balance (specs : List (Nat × Bool)) (st : LoopState)
    (hlen : specs.length ≤ 4)
    (hcounts : ∀ p ∈ specs, 1 ≤ p.1 % 256) :
    runNestedLoops specs st = truncState specs.length st ∧
    (truncState specs.length st = st → runNestedLoops specs st = st) := by
  have h := runNestedLoops_truncState specs hlen hcounts st
  exact ⟨h, fun hz => h.trans hz⟩

/-- C3 counterexample: one loop of count 1 (loop constant 1) started from a
stack state whose deepest index lane holds 7 does not restore the stacks —
the loop-end pop zeroes the deepest lane — refuting the claim for an
arbitrary starting state. -/
theorem c3_counterexample :
    runNestedLoops [(1, false)]
        { aL := { x := 0, y := 0, z := 0, w := 7 }
          loop_count := { x := 0, y := 0, z := 0, w := 0 } } ≠
      { aL := { x := 0, y := 0, z := 0, w := 7 }
        loop_count := { x := 0, y := 0, z := 0, w := 0 } } := by
  decide

/-- Witness for C3: one loop of count 1 restores a state whose deepest lanes
are zero. -/
theorem c3_loop_stack_balance_witness :
    runNestedLoops [(1, false)]
        { aL := { x := 5, y := 3, z := 2, w := 0 }
          loop_count := { x := 9, y := 8, z := 7, w := 0 } } =
      { aL := { x := 5, y := 3, z := 2, w := 0 }
        loop_count := { x := 9, y := 8, z := 7, w := 0 } } :=
  (c3_loop_stack_balance [(1, false)]
      { aL := { x := 5, y := 3, z := 2, w := 0 }
        loop_count := { x := 9, y := 8, z := 7, w := 0 } }
      (by decide) (by decide)).2 (by decide)

end XeniaHlsl
